import Mathlib

set_option autoImplicit false

namespace WebShell

/-!
Shallow embedding of the webshell terminal gateway (Rust sources:
`src/terminal/pty.rs`, `crates/backend/src/terminal/session.rs`,
`src/auth.rs`, `src/main.rs`, `src/ssh.rs`, `src/config.rs`).

Rust `HashMap<String, V>` values are modelled as association lists
`List (String × V)` with unique keys (the `Nodup` hypotheses below mirror
the HashMap key-uniqueness invariant).  Machine integers are modelled as
`Nat` (with explicit `% 256` / `% 2 ^ 32` where u8/u32 wrapping matters)
and instants as `Int` (chrono timestamps; only differences are compared).
-/

instance exceptDecEq {ε α : Type} [DecidableEq ε] [DecidableEq α] :
    DecidableEq (Except ε α) := fun x y =>
  match x, y with
  | .ok a, .ok b =>
    if h : a = b then isTrue (by rw [h]) else isFalse (fun hh => by cases hh; exact h rfl)
  | .error a, .error b =>
    if h : a = b then isTrue (by rw [h]) else isFalse (fun hh => by cases hh; exact h rfl)
  | .ok _, .error _ => isFalse (fun hh => by cases hh)
  | .error _, .ok _ => isFalse (fun hh => by cases hh)

/-- Lookup in an association list, first matching key (HashMap `get`). -/
def alookup {α : Type} (k : String) : List (String × α) → Option α
  | [] => none
  | (k₂, v) :: rest => if k₂ = k then some v else alookup k rest

/-- Remove every entry with the given key (HashMap `remove`; with unique
keys this removes at most one entry). -/
def aerase {α : Type} (k : String) : List (String × α) → List (String × α)
  | [] => []
  | (k₂, v) :: rest => if k₂ = k then aerase k rest else (k₂, v) :: aerase k rest

/-- Apply `f` to the value stored at `k` (HashMap `get_mut`). -/
def aupdate {α : Type} (k : String) (f : α → α) : List (String × α) → List (String × α)
  | [] => []
  | (k₂, v) :: rest =>
    if k₂ = k then (k₂, f v) :: aupdate k f rest else (k₂, v) :: aupdate k f rest

/-- Insert, replacing any previous binding (HashMap `insert`). -/
def ainsert {α : Type} (k : String) (v : α) (m : List (String × α)) : List (String × α) :=
  (k, v) :: aerase k m

/-! ## AuthGate: OS authentication (`src/auth.rs`, `authenticate_os`) -/

/-- The exact restriction of Rust `char::is_alphanumeric` (Unicode
Alphabetic ∪ Number) to the Latin-1 block: the ASCII alphanumerics plus
`ª ² ³ µ ¹ º ¼ ½ ¾ À–Ö Ø–ö ø–ÿ`; codepoints at or above `0x100` lie
outside the restriction's domain and are mapped to `false`.  The full
Unicode table of the Rust standard library is not embedded: the theorems
below take the predicate as a parameter, and this restriction is used only
in closed counterexamples and witnesses, all of which evaluate it solely
on codepoints below `0x100`, where it coincides with the Rust
predicate. -/
def latin1IsAlphanumeric (c : Char) : Bool :=
  let n := c.toNat
  decide ((48 ≤ n ∧ n ≤ 57) ∨ (65 ≤ n ∧ n ≤ 90) ∨ (97 ≤ n ∧ n ≤ 122) ∨
    n = 0xAA ∨ n = 0xB2 ∨ n = 0xB3 ∨ n = 0xB5 ∨ n = 0xB9 ∨ n = 0xBA ∨
    (0xBC ≤ n ∧ n ≤ 0xBE) ∨ (0xC0 ≤ n ∧ n ≤ 0xD6) ∨ (0xD8 ≤ n ∧ n ≤ 0xF6) ∨
    (0xF8 ≤ n ∧ n ≤ 0xFF))

/-- The per-character guard of `authenticate_os`
(`c.is_alphanumeric() || c == '_' || c == '-' || c == '.'`), parametric in
the standard library's Unicode predicate `char::is_alphanumeric`
(`isAlnum`): theorems about the guard quantify over `isAlnum`, so that
instantiated at the real Rust predicate they state exactly what the
program does. -/
def usernameCharOk (isAlnum : Char → Bool) (c : Char) : Bool :=
  isAlnum c || c == '_' || c == '-' || c == '.'

/-- The ASCII character set `[A-Za-z0-9_.\-]` named by the spec sentence
(used only to state how the code differs from the spec). -/
def specAsciiAllowed (c : Char) : Bool :=
  decide (('A' ≤ c ∧ c ≤ 'Z') ∨ ('a' ≤ c ∧ c ≤ 'z') ∨ ('0' ≤ c ∧ c ≤ '9')) ||
    c == '_' || c == '.' || c == '-'

/-- Outcome of the platform authentication command (`dscl` on macOS,
`su -c true` on Linux), which is external to the program text:
`success` = exit status zero, `failure` = nonzero exit status,
`spawnError e` = the command could not be spawned. -/
inductive PlatformOutcome
  | success
  | failure
  | spawnError (e : String)
  deriving DecidableEq, Repr

/-- `authenticate_os` (`src/auth.rs:81-109` plus the per-platform helpers),
parametric in `isAlnum` (the standard library's `char::is_alphanumeric`).
The first component records whether the platform authentication command was
invoked; the second is the `Result<String, String>` value.  Both macOS and
Linux helpers map a nonzero exit status to `"Invalid username or password"`
and a spawn failure to `"Failed to spawn auth process: …"`. -/
def authenticateOs (isAlnum : Char → Bool) (username password : String)
    (platform : PlatformOutcome) : Bool × Except String String :=
  if username = "" || password = "" then
    (false, .error "Username and password required")
  else if !username.data.all (usernameCharOk isAlnum) then
    (false, .error "Invalid username")
  else
    (true,
      match platform with
      | .success => .ok username
      | .failure => .error "Invalid username or password"
      | .spawnError e => .error ("Failed to spawn auth process: " ++ e))

/-! ## AuthGate: session tokens (`src/auth.rs`, `generate_token`,
`SessionStore`) -/

/-- 32-bit wrap. -/
def wrap32 (x : Nat) : Nat := x % 2 ^ 32

/-- 32-bit rotate right. -/
def rotr32 (n x : Nat) : Nat := ((x >>> n) ||| (x <<< (32 - n))) % 2 ^ 32

/-- SHA-256 Σ₀. -/
def bigSigma0 (x : Nat) : Nat := rotr32 2 x ^^^ rotr32 13 x ^^^ rotr32 22 x

/-- SHA-256 Σ₁. -/
def bigSigma1 (x : Nat) : Nat := rotr32 6 x ^^^ rotr32 11 x ^^^ rotr32 25 x

/-- SHA-256 σ₀. -/
def smallSigma0 (x : Nat) : Nat := rotr32 7 x ^^^ rotr32 18 x ^^^ (x >>> 3)

/-- SHA-256 σ₁. -/
def smallSigma1 (x : Nat) : Nat := rotr32 17 x ^^^ rotr32 19 x ^^^ (x >>> 10)

/-- SHA-256 Ch (with 32-bit complement of `x`). -/
def sha256Ch (x y z : Nat) : Nat := (x &&& y) ^^^ ((x ^^^ (2 ^ 32 - 1)) &&& z)

/-- SHA-256 Maj. -/
def sha256Maj (x y z : Nat) : Nat := (x &&& y) ^^^ (x &&& z) ^^^ (y &&& z)

/-- The 64 SHA-256 round constants of FIPS 180-4 (decimal). -/
def sha256K : List Nat :=
  [1116352408, 1899447441, 3049323471, 3921009573, 961987163, 1508970993,
   2453635748, 2870763221, 3624381080, 310598401, 607225278, 1426881987,
   1925078388, 2162078206, 2614888103, 3248222580, 3835390401, 4022224774,
   264347078, 604807628, 770255983, 1249150122, 1555081692, 1996064986,
   2554220882, 2821834349, 2952996808, 3210313671, 3336571891, 3584528711,
   113926993, 338241895, 666307205, 773529912, 1294757372, 1396182291,
   1695183700, 1986661051, 2177026350, 2456956037, 2730485921, 2820302411,
   3259730800, 3345764771, 3516065817, 3600352804, 4094571909, 275423344,
   430227734, 506948616, 659060556, 883997877, 958139571, 1322822218,
   1537002063, 1747873779, 1955562222, 2024104815, 2227730452, 2361852424,
   2428436474, 2756734187, 3204031479, 3329325298]

/-- SHA-256 working state (eight 32-bit words). -/
structure Sha256State where
  a : Nat
  b : Nat
  c : Nat
  d : Nat
  e : Nat
  f : Nat
  g : Nat
  h : Nat
  deriving DecidableEq, Repr

/-- SHA-256 initial hash value of FIPS 180-4 (decimal). -/
def sha256Init : Sha256State :=
  ⟨1779033703, 3144134277, 1013904242, 2773480762,
   1359893119, 2600822924, 528734635, 1541459225⟩

/-- Big-endian 8-byte encoding of the bit length, for padding. -/
def beBytes8 (n : Nat) : List Nat :=
  [(n >>> 56) % 256, (n >>> 48) % 256, (n >>> 40) % 256, (n >>> 32) % 256,
   (n >>> 24) % 256, (n >>> 16) % 256, (n >>> 8) % 256, n % 256]

/-- SHA-256 padding: `0x80`, zeros to 56 mod 64, then the 64-bit big-endian
message bit length. -/
def sha256Pad (msg : List Nat) : List Nat :=
  msg ++ [0x80] ++ List.replicate ((119 - msg.length % 64) % 64) 0 ++
    beBytes8 (8 * msg.length)

/-- Split a byte string into 64-byte blocks. -/
def toBlocks (l : List Nat) : List (List Nat) :=
  if hne : l = [] then [] else l.take 64 :: toBlocks (l.drop 64)
termination_by l.length
decreasing_by
  simp only [List.length_drop]
  have hpos : 0 < l.length := List.length_pos.mpr hne
  omega

/-- One big-endian 32-bit word from the first four bytes. -/
def beWord : List Nat → Nat
  | b0 :: b1 :: b2 :: b3 :: _ =>
    ((b0 % 256) <<< 24) + ((b1 % 256) <<< 16) + ((b2 % 256) <<< 8) + b3 % 256
  | _ => 0

/-- The sixteen message-schedule words of a block. -/
def wordsOfBlock (block : List Nat) : List Nat :=
  (List.range 16).map fun i => beWord (block.drop (4 * i))

/-- Extend the sixteen schedule words to sixty-four. -/
def extendW (w : List Nat) : List Nat :=
  (List.range 48).foldl
    (fun w i =>
      w ++ [wrap32 (smallSigma1 (w.getD (i + 14) 0) + w.getD (i + 9) 0 +
        smallSigma0 (w.getD (i + 1) 0) + w.getD i 0)])
    w

/-- One SHA-256 compression round. -/
def sha256Round (st : Sha256State) (kw : Nat × Nat) : Sha256State :=
  let t1 := wrap32 (st.h + bigSigma1 st.e + sha256Ch st.e st.f st.g + kw.1 + kw.2)
  let t2 := wrap32 (bigSigma0 st.a + sha256Maj st.a st.b st.c)
  ⟨wrap32 (t1 + t2), st.a, st.b, st.c, wrap32 (st.d + t1), st.e, st.f, st.g⟩

/-- Compress one 64-byte block into the running hash. -/
def sha256Block (h0 : Sha256State) (block : List Nat) : Sha256State :=
  let w := extendW (wordsOfBlock block)
  let st := (sha256K.zip w).foldl sha256Round h0
  ⟨wrap32 (h0.a + st.a), wrap32 (h0.b + st.b), wrap32 (h0.c + st.c),
   wrap32 (h0.d + st.d), wrap32 (h0.e + st.e), wrap32 (h0.f + st.f),
   wrap32 (h0.g + st.g), wrap32 (h0.h + st.h)⟩

/-- Big-endian serialization of one 32-bit word to four bytes. -/
def serializeWord (w : Nat) : List Nat :=
  [(w >>> 24) % 256, (w >>> 16) % 256, (w >>> 8) % 256, w % 256]

/-- SHA-256 of a byte string, as 32 bytes (the `sha2` crate digest). -/
def sha256 (msg : List Nat) : List Nat :=
  let hh := (toBlocks (sha256Pad msg)).foldl sha256Block sha256Init
  [hh.a, hh.b, hh.c, hh.d, hh.e, hh.f, hh.g, hh.h].flatMap serializeWord

/-- Hex digit table of `hex::encode` (`"0123456789abcdef"`). -/
def hexDigitChar (n : Nat) : Char :=
  if n < 10 then Char.ofNat (48 + n) else Char.ofNat (87 + n)

/-- Hex encoding of one byte (the `% 256` reflects the Rust `u8` type). -/
def hexByte (b : Nat) : List Char :=
  [hexDigitChar ((b % 256) / 16), hexDigitChar (b % 16)]

/-- `hex::encode`. -/
def hexEncode (bytes : List Nat) : String :=
  ⟨bytes.flatMap hexByte⟩

/-- `u128::to_le_bytes` of the nanosecond timestamp (16 bytes). -/
def leBytes16 (n : Nat) : List Nat :=
  (List.range 16).map fun i => (n >>> (8 * i)) % 256

/-- `generate_token` (`src/auth.rs:64-77`): SHA-256 over 32 random bytes
followed by the 16 little-endian bytes of the wall-clock nanoseconds, hex
encoded.  The random bytes and the timestamp are parameters (they come from
the thread RNG and the system clock). -/
def generateToken (rngBytes : List Nat) (nanos : Nat) : String :=
  hexEncode (sha256 (rngBytes ++ leBytes16 nanos))

/-- A stored auth session (`Session { username, created_at }`). -/
structure AuthSession where
  username : String
  createdAt : Nat
  deriving DecidableEq, Repr

/-- `SessionStore::create_session`: generate a token, insert
`token → Session`, return the updated store and the token. -/
def createSession (store : List (String × AuthSession)) (username : String)
    (rngBytes : List Nat) (nanos : Nat) (now : Nat) :
    List (String × AuthSession) × String :=
  let token := generateToken rngBytes nanos
  (ainsert token ⟨username, now⟩ store, token)

/-- `SessionStore::validate_session`: map the stored session to its
username. -/
def validateSession (store : List (String × AuthSession)) (token : String) :
    Option String :=
  (alookup token store).map AuthSession.username

/-- `SessionStore::remove_session`. -/
def removeSession (store : List (String × AuthSession)) (token : String) :
    List (String × AuthSession) :=
  aerase token store

/-- A lowercase hex digit, for stating the token-shape claim. -/
def isLowerHexDigit (c : Char) : Bool :=
  decide (('0' ≤ c ∧ c ≤ '9') ∨ ('a' ≤ c ∧ c ≤ 'f'))

/-! ## Terminal errors (`src/terminal/error.rs`) -/

/-- `TerminalError`.  `sendError` carries the display of the tokio
`mpsc::error::SendError`, which is the fixed string `"channel closed"`. -/
inductive TerminalErrorM
  | notFound (id : String)
  | alreadyExists (id : String)
  | ptyError (msg : String)
  | processExited
  | sendError (msg : String)
  | maxTerminalsReached
  deriving DecidableEq, Repr

/-! ## PtyManager (`src/terminal/pty.rs`) -/

/-- The per-terminal pty state that the claims observe: the window size
set through `openpty` / `resize` (`PtySize { rows, cols, .. }`). -/
structure PtyRecord where
  cols : Nat
  rows : Nat
  deriving DecidableEq, Repr

/-- Observable actions of the pty manager on the operating system:
spawning the child, the `resize` window-change ioctl, and the
`child.kill()` / `child.wait()` pair of `close`. -/
inductive PtyEvent
  | spawned (id : String)
  | windowChange (id : String) (cols rows : Nat)
  | killed (id : String)
  | waited (id : String)
  deriving DecidableEq, Repr

/-- The `PtyManager.terminals` map. -/
abbrev PtyMap := List (String × PtyRecord)

/-- `PtyManager::spawn` (`src/terminal/pty.rs:44-148`), reduced to the
state it keeps and the events it emits: fails with `AlreadyExists` when the
id is registered, otherwise opens the pty at the given size, spawns the
child and registers the terminal. -/
def ptySpawn (pm : PtyMap) (id : String) (cols rows : Nat) :
    Except TerminalErrorM Unit × PtyMap × List PtyEvent :=
  match alookup id pm with
  | some _ => (.error (.alreadyExists id), pm, [])
  | none => (.ok (), ainsert id ⟨cols, rows⟩ pm, [.spawned id])

/-- `PtyManager::resize` (`src/terminal/pty.rs:151-171`): when the id is
registered it unconditionally issues one window-change request with the
given size; otherwise `NotFound`. -/
def ptyResize (pm : PtyMap) (id : String) (cols rows : Nat) :
    Except TerminalErrorM Unit × PtyMap × List PtyEvent :=
  match alookup id pm with
  | some _ => (.ok (), aupdate id (fun _ => ⟨cols, rows⟩) pm, [.windowChange id cols rows])
  | none => (.error (.notFound id), pm, [])

/-- `PtyManager::close` (`src/terminal/pty.rs:174-190`): remove the entry,
kill the child, wait for it; `NotFound` when the id is absent. -/
def ptyClose (pm : PtyMap) (id : String) :
    Except TerminalErrorM Unit × PtyMap × List PtyEvent :=
  match alookup id pm with
  | some _ => (.ok (), aerase id pm, [.killed id, .waited id])
  | none => (.error (.notFound id), pm, [])

/-! ## SessionManager (`crates/backend/src/terminal/session.rs`) -/

/-- The manager's per-terminal record (`SessionState`): the `queueOpen`
flag models whether the input queue behind `handle.input_tx` still has its
receiver (it is open at spawn and closes when the writer task exits). -/
structure SessionRecord where
  queueOpen : Bool
  createdAt : Int
  lastActivity : Int
  connected : Bool
  deriving DecidableEq, Repr

/-- The state the session manager owns: its `sessions` map plus the pty
manager's `terminals` map. -/
structure ManagerState where
  sessions : List (String × SessionRecord)
  ptys : PtyMap
  deriving DecidableEq, Repr

/-- `SessionManager::touch`: set `last_activity` to now (silent no-op on an
absent id). -/
def touch (st : ManagerState) (id : String) (now : Int) : ManagerState :=
  { st with sessions := aupdate id (fun r => { r with lastActivity := now }) st.sessions }

/-- `SessionManager::create_terminal`
(`crates/backend/src/terminal/session.rs:98-157`): fail fast with
`MaxTerminalsReached` when `sessions.len() >= max_terminals`; otherwise
spawn through the pty manager and insert the record with
`connected = true` and both timestamps equal to now. -/
def createTerminal (st : ManagerState) (maxTerminals : Nat) (id : String)
    (cols rows : Nat) (now : Int) :
    Except TerminalErrorM Unit × ManagerState × List PtyEvent :=
  if st.sessions.length ≥ maxTerminals then
    (.error .maxTerminalsReached, st, [])
  else
    match ptySpawn st.ptys id cols rows with
    | (.error e, pm, ev) => (.error e, { st with ptys := pm }, ev)
    | (.ok _, pm, ev) =>
      (.ok (), { sessions := ainsert id ⟨true, now, now, true⟩ st.sessions, ptys := pm }, ev)

/-- `SessionManager::write_to_terminal`
(`crates/backend/src/terminal/session.rs:160-179`): `NotFound` when the id
is absent; otherwise `touch`, then send on the input queue, mapping a
closed-queue failure to `SendError`. -/
def writeToTerminal (st : ManagerState) (id : String) (now : Int) :
    Except TerminalErrorM Unit × ManagerState :=
  match alookup id st.sessions with
  | none => (.error (.notFound id), st)
  | some r =>
    let st₂ := touch st id now
    if r.queueOpen then (.ok (), st₂)
    else (.error (.sendError "channel closed"), st₂)

/-- `SessionManager::resize_terminal`
(`crates/backend/src/terminal/session.rs:182-191`): pty resize first (its
error propagates before `touch` runs), then `touch`. -/
def resizeTerminal (st : ManagerState) (id : String) (cols rows : Nat) (now : Int) :
    Except TerminalErrorM Unit × ManagerState × List PtyEvent :=
  match ptyResize st.ptys id cols rows with
  | (.error e, pm, ev) => (.error e, { st with ptys := pm }, ev)
  | (.ok _, pm, ev) => (.ok (), touch { st with ptys := pm } id now, ev)

/-- `SessionManager::close_terminal`
(`crates/backend/src/terminal/session.rs:194-201`): close the pty (any
error is only logged), then remove the id from the sessions map; the
function returns `()` unconditionally. -/
def closeTerminal (st : ManagerState) (id : String) : ManagerState × List PtyEvent :=
  let c := ptyClose st.ptys id
  ({ sessions := aerase id st.sessions, ptys := c.2.1 }, c.2.2)

/-- The reaper's selection (`start_cleanup_task`,
`crates/backend/src/terminal/session.rs:63-81`): ids whose record is not
connected and whose idle duration exceeds the timeout.  `Int.toNat` models
`signed_duration_since(..).to_std().unwrap_or(Duration::ZERO)` (a negative
duration counts as zero). -/
def reaperSelect (sessions : List (String × SessionRecord)) (now : Int) (timeout : Nat) :
    List String :=
  (sessions.filter fun p => !p.2.connected && decide (timeout < (now - p.2.lastActivity).toNat)).map
    Prod.fst

/-- One step of the reaper's removal loop: close the pty (kill + wait,
errors logged) and remove the session entry — the same operations as
`close_terminal` — accumulating the emitted events. -/
def closeFold (acc : ManagerState × List PtyEvent) (id : String) :
    ManagerState × List PtyEvent :=
  let c := closeTerminal acc.1 id
  (c.1, acc.2 ++ c.2)

/-- One reaper tick (`crates/backend/src/terminal/session.rs:60-93`):
select the idle disconnected ids under the read view, then remove each in
turn. -/
def reaperTick (st : ManagerState) (now : Int) (timeout : Nat) :
    ManagerState × List PtyEvent :=
  (reaperSelect st.sessions now timeout).foldl closeFold (st, [])

/-! ## Output path (`src/terminal/pty.rs` reader thread,
`crates/backend/src/terminal/session.rs` `byte_callback`,
`src/main.rs` `handle_message` / `handle_socket`) -/

/-- A `shell.output` envelope; `output` holds the UTF-8 bytes of the Rust
`String` (Rust `String::from_utf8` revalidates and reuses the same bytes,
so a delivered `output` is byte-identical to its chunk). -/
structure ShellOutputMsg where
  id : String
  output : List Nat
  deriving DecidableEq, Repr

/-- Strict UTF-8 validity, as checked by Rust `String::from_utf8`
(RFC 3629: no overlong forms, no surrogates, max U+10FFFF). -/
def validUtf8 : List Nat → Bool
  | [] => true
  | b :: rest =>
    if b ≤ 0x7F then validUtf8 rest
    else if 0xC2 ≤ b ∧ b ≤ 0xDF then
      match rest with
      | b2 :: r => (0x80 ≤ b2 && b2 ≤ 0xBF) && validUtf8 r
      | [] => false
    else if b = 0xE0 then
      match rest with
      | b2 :: b3 :: r =>
        (0xA0 ≤ b2 && b2 ≤ 0xBF) && (0x80 ≤ b3 && b3 ≤ 0xBF) && validUtf8 r
      | _ => false
    else if (0xE1 ≤ b ∧ b ≤ 0xEC) ∨ b = 0xEE ∨ b = 0xEF then
      match rest with
      | b2 :: b3 :: r =>
        (0x80 ≤ b2 && b2 ≤ 0xBF) && (0x80 ≤ b3 && b3 ≤ 0xBF) && validUtf8 r
      | _ => false
    else if b = 0xED then
      match rest with
      | b2 :: b3 :: r =>
        (0x80 ≤ b2 && b2 ≤ 0x9F) && (0x80 ≤ b3 && b3 ≤ 0xBF) && validUtf8 r
      | _ => false
    else if b = 0xF0 then
      match rest with
      | b2 :: b3 :: b4 :: r =>
        (0x90 ≤ b2 && b2 ≤ 0xBF) && (0x80 ≤ b3 && b3 ≤ 0xBF) &&
          (0x80 ≤ b4 && b4 ≤ 0xBF) && validUtf8 r
      | _ => false
    else if 0xF1 ≤ b ∧ b ≤ 0xF3 then
      match rest with
      | b2 :: b3 :: b4 :: r =>
        (0x80 ≤ b2 && b2 ≤ 0xBF) && (0x80 ≤ b3 && b3 ≤ 0xBF) &&
          (0x80 ≤ b4 && b4 ≤ 0xBF) && validUtf8 r
      | _ => false
    else if b = 0xF4 then
      match rest with
      | b2 :: b3 :: b4 :: r =>
        (0x80 ≤ b2 && b2 ≤ 0x8F) && (0x80 ≤ b3 && b3 ≤ 0xBF) &&
          (0x80 ≤ b4 && b4 ≤ 0xBF) && validUtf8 r
      | _ => false
    else false

/-- The `byte_callback` wrapper of `create_terminal`
(`crates/backend/src/terminal/session.rs:124-128`):
`if let Ok(s) = String::from_utf8(data) { output_callback(s) }` — a chunk
that is not valid UTF-8 is silently dropped. -/
def byteCallback (data : List Nat) : Option (List Nat) :=
  if validUtf8 data then some data else none

/-- The envelopes the client receives for one terminal, given the byte
chunks the backend reader emitted in order: the reader thread
(`src/terminal/pty.rs:108-125`) calls the callback once per chunk in
order; surviving chunks are wrapped into `shell.output` envelopes
(`src/main.rs:406-411`) and pushed through the unbounded FIFO that the
sender task drains in order. -/
def outputEnvelopes (id : String) (chunks : List (List Nat)) : List ShellOutputMsg :=
  chunks.filterMap fun c => (byteCallback c).map fun s => ⟨id, s⟩

/-! ## WebSocket upgrade gate (`src/main.rs`, `ws_handler`) -/

/-- The two outcomes of `ws_handler` (`src/main.rs:327-352`): upgrade the
socket into `handle_socket` (the message gateway) carrying the validated
user and token, or answer 401 without upgrading — `handle_socket` is only
ever invoked in the upgraded branch, so no envelope of a rejected client
reaches the gateway. -/
inductive WsUpgradeResponse
  | upgraded (username : String) (token : String)
  | unauthorized
  deriving DecidableEq, Repr

/-- `ws_handler`: read the `webshell_session` cookie, validate it against
the session store, 401 when absent or invalid. -/
def wsHandler (cookie : Option String) (store : List (String × AuthSession)) :
    WsUpgradeResponse :=
  match cookie with
  | some token =>
    match validateSession store token with
    | some user => .upgraded user token
    | none => .unauthorized
  | none => .unauthorized

/-! ## Login handler (`src/main.rs`, `login_handler`; `src/config.rs`) -/

/-- `config::AuthMethod` (the source's `None` variant is `noAuth` here). -/
inductive CfgAuthMethod
  | password (p : String)
  | keyFile (path : String) (passphrase : Option String)
  | keyData (data : String) (passphrase : Option String)
  | noAuth
  deriving DecidableEq, Repr

/-- The configuration fields `login_handler` reads. -/
structure AppConfigModel where
  host : Option String
  user : Option String
  auth : CfgAuthMethod
  deriving DecidableEq, Repr

/-- The login form (`LoginRequest`). -/
structure LoginRequestModel where
  host : Option String
  username : Option String
  password : Option String
  deriving DecidableEq, Repr

/-- `LoginResponse`. -/
structure LoginResponseModel where
  success : Bool
  message : String
  username : Option String
  deriving DecidableEq, Repr

/-- `state.config.host.clone().or(login.host).unwrap_or("localhost")`. -/
def effectiveHost (cfg : AppConfigModel) (login : LoginRequestModel) : String :=
  ((cfg.host).orElse fun _ => login.host).getD "localhost"

/-- `state.config.user.clone().or(login.username).unwrap_or_default()`. -/
def effectiveUser (cfg : AppConfigModel) (login : LoginRequestModel) : String :=
  ((cfg.user).orElse fun _ => login.username).getD ""

/-- `login.password.unwrap_or_default()`. -/
def formPasswordOf (login : LoginRequestModel) : String :=
  login.password.getD ""

/-- Character-list prefix test (Rust `str::starts_with`). -/
def listStarts : List Char → List Char → Bool
  | [], _ => true
  | _ :: _, [] => false
  | a :: as, b :: bs => a == b && listStarts as bs

/-- `host == "localhost" || host == "127.0.0.1" || host.starts_with("127.")`. -/
def isLocalHost (host : String) : Bool :=
  host == "localhost" || host == "127.0.0.1" || listStarts "127.".data host.data

/-- The password used on the local path: a configured password wins over
the form value. -/
def effectiveLocalPassword (cfg : AppConfigModel) (login : LoginRequestModel) : String :=
  match cfg.auth with
  | .password p => p
  | _ => formPasswordOf login

/-- `login_handler` (`src/main.rs:179-288`), parametric in `isAlnum` (the
standard library's `char::is_alphanumeric`, threaded into
`authenticate_os`).  `osOutcome` is the platform authentication command's
result and `sshTest` the outcome of `ssh::test_connection` (network), both
external; the returned `Bool` says whether the session cookie was set.
Key-loading and connection failures surface as the error strings
`SshSession::connect` builds, carried inside `sshTest`. -/
def loginHandler (isAlnum : Char → Bool) (cfg : AppConfigModel) (login : LoginRequestModel)
    (osOutcome : PlatformOutcome) (sshTest : Except String String) :
    LoginResponseModel × Bool :=
  let host := effectiveHost cfg login
  let username := effectiveUser cfg login
  let formPassword := formPasswordOf login
  let finish : Except String String → LoginResponseModel × Bool := fun r =>
    match r with
    | .ok u => (⟨true, "Login successful", some u⟩, true)
    | .error e => (⟨false, e, none⟩, false)
  if isLocalHost host then
    let password := effectiveLocalPassword cfg login
    if username = "" || password = "" then
      finish (.error "Username and password required")
    else
      finish (authenticateOs isAlnum username password osOutcome).2
  else
    match cfg.auth with
    | .noAuth =>
      if formPassword = "" then (⟨false, "Password required", none⟩, false)
      else if username = "" then finish (.error "Username required")
      else finish (match sshTest with | .ok _ => .ok username | .error e => .error e)
    | _ =>
      if username = "" then finish (.error "Username required")
      else finish (match sshTest with | .ok _ => .ok username | .error e => .error e)

/-! ## Map lemmas -/

@[simp] theorem alookup_nil {α : Type} (k : String) : alookup (α := α) k [] = none := rfl

@[simp] theorem alookup_cons {α : Type} (k k₂ : String) (v : α) (rest : List (String × α)) :
    alookup k ((k₂, v) :: rest) = if k₂ = k then some v else alookup k rest := rfl

@[simp] theorem alookup_aerase {α : Type} (k j : String) (m : List (String × α)) :
    alookup k (aerase j m) = if j = k then none else alookup k m := by
  induction m with
  | nil => simp [aerase]
  | cons hd tl ih =>
    obtain ⟨k₂, v⟩ := hd
    by_cases h₁ : k₂ = j
    · subst h₁
      by_cases h₂ : k₂ = k
      · subst h₂; simp [aerase, ih]
      · simp [aerase, h₂, ih]
    · by_cases h₂ : k₂ = k
      · subst h₂
        have h₃ : ¬j = k₂ := fun h => h₁ h.symm
        simp [aerase, h₁, h₃]
      · simp [aerase, h₁, h₂, ih]

@[simp] theorem alookup_aupdate {α : Type} (k j : String) (f : α → α) (m : List (String × α)) :
    alookup k (aupdate j f m) = if j = k then (alookup k m).map f else alookup k m := by
  induction m with
  | nil => simp [aupdate]
  | cons hd tl ih =>
    obtain ⟨k₂, v⟩ := hd
    by_cases h₁ : k₂ = j
    · subst h₁
      by_cases h₂ : k₂ = k
      · subst h₂; simp [aupdate, ih]
      · simp [aupdate, h₂, ih]
    · by_cases h₂ : k₂ = k
      · subst h₂
        have h₃ : ¬j = k₂ := fun h => h₁ h.symm
        simp [aupdate, h₁, h₃]
      · simp [aupdate, h₁, h₂, ih]

@[simp] theorem alookup_ainsert {α : Type} (k j : String) (v : α) (m : List (String × α)) :
    alookup k (ainsert j v m) = if j = k then some v else alookup k m := by
  by_cases h : j = k <;> simp [ainsert, h]

theorem aupdate_not_mem {α : Type} (k : String) (f : α → α) (m : List (String × α))
    (h : k ∉ m.map Prod.fst) : aupdate k f m = m := by
  induction m with
  | nil => rfl
  | cons hd tl ih =>
    obtain ⟨k₂, v⟩ := hd
    simp only [List.map_cons, List.mem_cons] at h
    push_neg at h
    have h₁ : ¬k₂ = k := fun hh => h.1 hh.symm
    simp [aupdate, h₁, ih h.2]

/-- Updating the stored value to itself is the identity (used for the
resize no-op claim); needs key uniqueness so that only the looked-up entry
matters. -/
theorem aupdate_self {α : Type} (k : String) (r : α) (f : α → α) (m : List (String × α))
    (hnd : (m.map Prod.fst).Nodup) (hl : alookup k m = some r) (hf : f r = r) :
    aupdate k f m = m := by
  induction m with
  | nil => simp [alookup] at hl
  | cons hd tl ih =>
    obtain ⟨k₂, v⟩ := hd
    simp only [List.map_cons, List.nodup_cons] at hnd
    by_cases h : k₂ = k
    · subst h
      have hv : v = r := by simpa using hl
      subst hv
      simp [aupdate, hf, aupdate_not_mem _ _ _ hnd.1]
    · have hl₂ : alookup k tl = some r := by simpa [h] using hl
      simp [aupdate, h, ih hnd.2 hl₂]

theorem mem_of_alookup {α : Type} (s : List (String × α)) (k : String) (v : α)
    (hl : alookup k s = some v) : (k, v) ∈ s := by
  induction s with
  | nil => simp [alookup] at hl
  | cons hd tl ih =>
    obtain ⟨k₂, v₂⟩ := hd
    by_cases h : k₂ = k
    · subst h
      have hv : v₂ = v := by simpa using hl
      subst hv
      exact List.mem_cons_self _ _
    · exact List.mem_cons_of_mem _ (ih (by simpa [h] using hl))

theorem alookup_of_mem_nodup {α : Type} (s : List (String × α)) (k : String) (v : α)
    (hnd : (s.map Prod.fst).Nodup) (hmem : (k, v) ∈ s) : alookup k s = some v := by
  induction s with
  | nil => cases hmem
  | cons hd tl ih =>
    obtain ⟨k₂, v₂⟩ := hd
    simp only [List.map_cons, List.nodup_cons] at hnd
    rcases List.mem_cons.mp hmem with h | h
    · cases h
      simp
    · have hk : ¬k₂ = k := by
        intro he
        subst he
        exact hnd.1 (List.mem_map.mpr ⟨(k₂, v), h, rfl⟩)
      simp [hk, ih hnd.2 h]

theorem alookup_foldl_aerase {α : Type} (ids : List String) (s : List (String × α)) (k : String) :
    alookup k (ids.foldl (fun s₂ i => aerase i s₂) s)
      = if k ∈ ids then none else alookup k s := by
  induction ids generalizing s with
  | nil => simp
  | cons i is ih =>
    simp only [List.foldl_cons, ih, List.mem_cons]
    by_cases h₁ : k ∈ is
    · simp [h₁]
    · by_cases h₂ : k = i
      · subst h₂
        simp [h₁]
      · have h₃ : ¬i = k := fun hh => h₂ hh.symm
        simp [h₁, h₂, h₃]

/-! ## Output-path lemmas and C1 -/

theorem outputEnvelopes_eq_filter (id : String) (chunks : List (List Nat)) :
    outputEnvelopes id chunks
      = (chunks.filter fun c => validUtf8 c).map fun c => ShellOutputMsg.mk id c := by
  induction chunks with
  | nil => rfl
  | cons c cs ih =>
    by_cases h : validUtf8 c <;>
      simp [outputEnvelopes, byteCallback, h, List.filterMap_cons, List.filter_cons] at ih ⊢ <;>
      exact ih

/-- C1 counterexample: the backend reader emits the single chunk `[0xFF]`
(one byte that is not valid UTF-8, e.g. half of a multi-byte sequence split
at the 4096-byte read boundary); the claim requires one `shell.output`
envelope per chunk with no loss, but the gateway delivers zero envelopes —
the chunk is silently dropped by the strict `String::from_utf8` check. -/
theorem c1_chunk_loss :
    outputEnvelopes "t1" [[0xFF]] = [] ∧
    (outputEnvelopes "t1" [[0xFF]]).length ≠ ([[0xFF]] : List (List Nat)).length := by
  decide

/-- C1 (amended): every byte chunk that is valid UTF-8 is delivered as a
`shell.output` envelope whose `output` is exactly the chunk's bytes, in the
order the backend reader produced the chunks; chunks that are not valid
UTF-8 are silently dropped (so the delivered stream is the in-order
filtering of the chunk stream by strict UTF-8 validity, and when every
chunk is valid UTF-8 there is no loss at all). -/
theorem c1_output_stream_amended (id : String) (chunks : List (List Nat)) :
    outputEnvelopes id chunks
        = (chunks.filter fun c => validUtf8 c).map (fun c => ShellOutputMsg.mk id c) ∧
      ((∀ c ∈ chunks, validUtf8 c = true) →
        outputEnvelopes id chunks = chunks.map fun c => ShellOutputMsg.mk id c) := by
  refine ⟨outputEnvelopes_eq_filter id chunks, fun hv => ?_⟩
  rw [outputEnvelopes_eq_filter, List.filter_eq_self.mpr hv]

/-- Witness for C1 (amended) at a concrete valid chunk. -/
theorem c1_output_stream_amended_witness :
    outputEnvelopes "t1" [[104, 105, 10]] = [ShellOutputMsg.mk "t1" [104, 105, 10]] :=
  (c1_output_stream_amended "t1" [[104, 105, 10]]).2 (by decide)

/-! ## C4: input validation of `authenticate_os` -/

/-- C4 counterexample: the username `"é"` contains a character outside the
spec's ASCII set `[A-Za-z0-9_.\-]`, yet `authenticate_os` does not reject
it: Rust's `char::is_alphanumeric` is Unicode-wide and `é` (U+00E9, a
Unicode letter) passes it, so the guard passes and the platform
authentication command is invoked (first component `true`).  Every
codepoint evaluated here is below `0x100`, where `latin1IsAlphanumeric`
coincides with the Rust predicate. -/
theorem c4_ascii_guard_counterexample :
    specAsciiAllowed 'é' = false ∧
    latin1IsAlphanumeric 'é' = true ∧
    authenticateOs latin1IsAlphanumeric "é" "secret" .success = (true, .ok "é") ∧
    authenticateOs latin1IsAlphanumeric "é" "secret" .failure
      = (true, .error "Invalid username or password") := by
  decide

/-- C4 (amended): for every character-class predicate `isAlnum` — in
particular the standard library's `char::is_alphanumeric` the program
uses — `authenticate` rejects an empty username or password, and rejects
any username containing a character that is neither `isAlnum` nor one of
`_`, `-`, `.`, in both cases without invoking the platform authentication
command; the platform command is invoked exactly when both strings are
nonempty and every username character passes that guard.  The program's
guard is Unicode-wide, wider than the ASCII set `[A-Za-z0-9_.\-]` the
claim states (see the counterexample). -/
theorem c4_validation_amended (isAlnum : Char → Bool) (username password : String)
    (os : PlatformOutcome) :
    (username = "" ∨ password = "" →
      authenticateOs isAlnum username password os
        = (false, .error "Username and password required")) ∧
    (username ≠ "" → password ≠ "" →
      username.data.all (usernameCharOk isAlnum) = false →
      authenticateOs isAlnum username password os = (false, .error "Invalid username")) ∧
    ((authenticateOs isAlnum username password os).1 = true ↔
      username ≠ "" ∧ password ≠ "" ∧
        username.data.all (usernameCharOk isAlnum) = true) := by
  refine ⟨fun h => ?_, fun h₁ h₂ h₃ => ?_, ?_⟩
  · rcases h with h | h <;> simp [authenticateOs, h]
  · simp [authenticateOs, h₁, h₂, h₃]
  · constructor
    · intro h
      by_cases h₁ : username = ""
      · simp [authenticateOs, h₁] at h
      · by_cases h₂ : password = ""
        · simp [authenticateOs, h₂] at h
        · by_cases h₃ : username.data.all (usernameCharOk isAlnum)
          · exact ⟨h₁, h₂, h₃⟩
          · simp [authenticateOs, h₁, h₂, h₃] at h
    · rintro ⟨h₁, h₂, h₃⟩
      simp [authenticateOs, h₁, h₂, h₃]

/-- Witness for C4 (amended): an ASCII username with a space is rejected
without invoking the platform command (instantiated at the Latin-1
restriction; every evaluated codepoint is ASCII). -/
theorem c4_validation_amended_witness :
    authenticateOs latin1IsAlphanumeric "a b" "pw" .success
      = (false, .error "Invalid username") :=
  (c4_validation_amended latin1IsAlphanumeric "a b" "pw" .success).2.1
    (by decide) (by decide) (by decide)

/-! ## C10: token shape lemmas -/

theorem hexDigitChar_lower (n : Nat) (h : n < 16) :
    isLowerHexDigit (hexDigitChar n) = true := by
  interval_cases n <;> decide

theorem hexByte_lower (b : Nat) (c : Char) (hc : c ∈ hexByte b) :
    isLowerHexDigit c = true := by
  have h₁ : b % 256 / 16 < 16 := by omega
  have h₂ : b % 16 < 16 := Nat.mod_lt _ (by norm_num)
  simp only [hexByte, List.mem_cons, List.mem_singleton] at hc
  rcases hc with rfl | rfl | hc
  · exact hexDigitChar_lower _ h₁
  · exact hexDigitChar_lower _ h₂
  · cases hc

theorem length_hexEncode (bytes : List Nat) :
    (hexEncode bytes).length = 2 * bytes.length := by
  simp only [hexEncode, String.length]
  induction bytes with
  | nil => rfl
  | cons b bs ih =>
    rw [List.flatMap_cons, List.length_append, ih]
    have h₂ : (hexByte b).length = 2 := rfl
    rw [h₂, List.length_cons]
    omega

theorem sha256_length (msg : List Nat) : (sha256 msg).length = 32 := rfl

theorem sha256_mem_lt (msg : List Nat) (b : Nat) (hb : b ∈ sha256 msg) : b < 256 := by
  simp only [sha256, List.mem_flatMap] at hb
  obtain ⟨w, _, hbw⟩ := hb
  simp only [serializeWord, List.mem_cons, List.mem_singleton] at hbw
  rcases hbw with rfl | rfl | rfl | rfl | hbw
  · exact Nat.mod_lt _ (by norm_num)
  · exact Nat.mod_lt _ (by norm_num)
  · exact Nat.mod_lt _ (by norm_num)
  · exact Nat.mod_lt _ (by norm_num)
  · cases hbw

/-- C10: every token returned by `create_session` is the hex encoding of
the 32-byte SHA-256 digest of the 32 random bytes followed by the 16
little-endian nanosecond bytes, hence exactly 64 lowercase hexadecimal
characters; and the token is inserted into the store bound to the given
username, so `validate_session` of the returned token yields that
username. -/
theorem c10_token_shape (store : List (String × AuthSession)) (username : String)
    (rngBytes : List Nat) (nanos : Nat) (now : Nat) :
    ((createSession store username rngBytes nanos now).2).length = 64 ∧
    (∀ c ∈ ((createSession store username rngBytes nanos now).2).data,
      isLowerHexDigit c = true) ∧
    (createSession store username rngBytes nanos now).2
        = hexEncode (sha256 (rngBytes ++ leBytes16 nanos)) ∧
    (sha256 (rngBytes ++ leBytes16 nanos)).length = 32 ∧
    validateSession (createSession store username rngBytes nanos now).1
        (createSession store username rngBytes nanos now).2 = some username := by
  refine ⟨?_, ?_, rfl, sha256_length _, ?_⟩
  · show (generateToken rngBytes nanos).length = 64
    rw [generateToken, length_hexEncode, sha256_length]
  · intro c hc
    have hc₂ : c ∈ (sha256 (rngBytes ++ leBytes16 nanos)).flatMap hexByte := hc
    obtain ⟨b, _, hcb⟩ := List.mem_flatMap.mp hc₂
    exact hexByte_lower b c hcb
  · simp [validateSession, createSession]

/-- Witness for C10 at concrete randomness, timestamp and store. -/
theorem c10_token_shape_witness :
    ((createSession [] "alice" [] 0 0).2).length = 64 ∧
    validateSession (createSession [] "alice" [] 0 0).1 (createSession [] "alice" [] 0 0).2
      = some "alice" :=
  ⟨(c10_token_shape [] "alice" [] 0 0).1, (c10_token_shape [] "alice" [] 0 0).2.2.2.2⟩

/-! ## C6: socket-upgrade authentication gate -/

/-- C6: a socket-upgrade request whose session cookie is absent, or whose
token does not validate against the session store, is answered 401 and not
upgraded (`handle_socket`, the message gateway, is only invoked on the
upgraded branch, so no envelope from a rejected client reaches it); a
request with a valid cookie is upgraded, carrying the bound username. -/
theorem c6_ws_auth_gate (cookie : Option String) (store : List (String × AuthSession)) :
    (wsHandler cookie store = .unauthorized ↔
      (cookie = none ∨ ∃ t, cookie = some t ∧ validateSession store t = none)) ∧
    (∀ t u, cookie = some t → validateSession store t = some u →
      wsHandler cookie store = .upgraded u t) := by
  cases cookie with
  | none => simp [wsHandler]
  | some t =>
    cases h : validateSession store t with
    | none =>
      constructor
      · simp [wsHandler, h]
      · intro t₂ u ht hu
        cases ht
        rw [h] at hu
        cases hu
    | some u =>
      constructor
      · simp [wsHandler, h]
      · intro t₂ u₂ ht hu
        cases ht
        rw [h] at hu
        cases hu
        simp [wsHandler, h]

/-- Witness for C6: a valid cookie upgrades; a missing cookie gets 401. -/
theorem c6_ws_auth_gate_witness :
    wsHandler (some "tok") [("tok", ⟨"alice", 0⟩)] = .upgraded "alice" "tok" ∧
    wsHandler none [("tok", ⟨"alice", 0⟩)] = .unauthorized :=
  ⟨(c6_ws_auth_gate (some "tok") [("tok", ⟨"alice", 0⟩)]).2 "tok" "alice" rfl (by decide),
   (c6_ws_auth_gate none [("tok", ⟨"alice", 0⟩)]).1.mpr (Or.inl rfl)⟩

/-! ## C3: terminal quota -/

/-- C3: whenever the number of live terminals is at least `max_terminals`,
`create_terminal` returns `MaxTerminalsReached`, spawns no backend child
(no events) and leaves the whole manager state unchanged; when the count is
below `max_terminals` the quota check passes (the result is never
`MaxTerminalsReached`). -/
theorem c3_quota_check (st : ManagerState) (maxTerminals : Nat) (id : String)
    (cols rows : Nat) (now : Int) :
    (maxTerminals ≤ st.sessions.length →
      createTerminal st maxTerminals id cols rows now = (.error .maxTerminalsReached, st, [])) ∧
    (st.sessions.length < maxTerminals →
      (createTerminal st maxTerminals id cols rows now).1 ≠ .error .maxTerminalsReached) := by
  constructor
  · intro h
    simp [createTerminal, h]
  · intro h
    have h₂ : ¬st.sessions.length ≥ maxTerminals := by omega
    cases hsp : alookup id st.ptys <;>
      simp [createTerminal, h₂, ptySpawn, hsp]

/-- Witness for C3: a one-terminal state at quota 1 rejects a second
terminal unchanged; at quota 2 the quota check passes. -/
theorem c3_quota_check_witness :
    createTerminal ⟨[("a", ⟨true, 0, 0, true⟩)], [("a", ⟨80, 24⟩)]⟩ 1 "b" 80 24 5
        = (.error .maxTerminalsReached, ⟨[("a", ⟨true, 0, 0, true⟩)], [("a", ⟨80, 24⟩)]⟩, []) ∧
    (createTerminal ⟨[("a", ⟨true, 0, 0, true⟩)], [("a", ⟨80, 24⟩)]⟩ 2 "b" 80 24 5).1
        ≠ .error .maxTerminalsReached :=
  ⟨(c3_quota_check ⟨[("a", ⟨true, 0, 0, true⟩)], [("a", ⟨80, 24⟩)]⟩ 1 "b" 80 24 5).1 (by decide),
   (c3_quota_check ⟨[("a", ⟨true, 0, 0, true⟩)], [("a", ⟨80, 24⟩)]⟩ 2 "b" 80 24 5).2 (by decide)⟩

/-! ## C7: resize with unchanged dimensions -/

/-- C7: for a registered terminal, `resize` with the terminal's current
`cols` and `rows` issues exactly one window-change request (so at most one)
and leaves the pty manager's state unchanged. -/
theorem c7_resize_unchanged_noop (pm : PtyMap) (id : String) (r : PtyRecord) (cols rows : Nat)
    (hnd : (pm.map Prod.fst).Nodup) (hl : alookup id pm = some r)
    (hc : r.cols = cols) (hr : r.rows = rows) :
    ptyResize pm id cols rows = (.ok (), pm, [.windowChange id cols rows]) ∧
    (ptyResize pm id cols rows).2.2.length ≤ 1 := by
  have hfr : (fun _ : PtyRecord => (⟨cols, rows⟩ : PtyRecord)) r = r := by
    cases r with
    | mk c₂ r₂ =>
      simp only [PtyRecord.mk.injEq]
      simp at hc hr
      exact ⟨hc.symm, hr.symm⟩
  have hupd : aupdate id (fun _ => (⟨cols, rows⟩ : PtyRecord)) pm = pm :=
    aupdate_self id r _ pm hnd hl hfr
  constructor
  · simp [ptyResize, hl, hupd]
  · simp [ptyResize, hl]

/-- Witness for C7 at a concrete one-terminal pty map. -/
theorem c7_resize_unchanged_noop_witness :
    ptyResize [("t", ⟨80, 24⟩)] "t" 80 24
      = (.ok (), [("t", ⟨80, 24⟩)], [.windowChange "t" 80 24]) :=
  (c7_resize_unchanged_noop [("t", ⟨80, 24⟩)] "t" ⟨80, 24⟩ 80 24 (by decide) (by decide)
    rfl rfl).1

/-! ## C9: close_terminal -/

/-- C9: after `close_terminal(id)` the id is absent from the session map
and every other id's entry is unchanged; the function's return type carries
no error (the model returns the new state and the backend events
unconditionally, mirroring the Rust `()` return), and the statement holds
for every prior state — including states where the backend close fails
because the pty manager has no such id. -/
theorem c9_close_terminal_removes (st : ManagerState) (id : String) :
    alookup id (closeTerminal st id).1.sessions = none ∧
    (∀ j, j ≠ id → alookup j (closeTerminal st id).1.sessions = alookup j st.sessions) := by
  constructor
  · simp [closeTerminal]
  · intro j hj
    have h : ¬id = j := fun h => hj h.symm
    simp [closeTerminal, h]

/-- Witness for C9: closing `"a"` removes it (here the pty map is empty, so
the backend close fails with `NotFound` and is only logged) and leaves
`"b"` untouched. -/
theorem c9_close_terminal_removes_witness :
    alookup "a" (closeTerminal
        ⟨[("a", ⟨true, 0, 0, true⟩), ("b", ⟨true, 0, 0, true⟩)], []⟩ "a").1.sessions = none ∧
    alookup "b" (closeTerminal
        ⟨[("a", ⟨true, 0, 0, true⟩), ("b", ⟨true, 0, 0, true⟩)], []⟩ "a").1.sessions
      = alookup "b" [("a", ⟨true, 0, 0, true⟩), ("b", ⟨true, 0, 0, true⟩)] :=
  ⟨(c9_close_terminal_removes ⟨[("a", ⟨true, 0, 0, true⟩), ("b", ⟨true, 0, 0, true⟩)], []⟩ "a").1,
   (c9_close_terminal_removes ⟨[("a", ⟨true, 0, 0, true⟩), ("b", ⟨true, 0, 0, true⟩)], []⟩ "a").2
     "b" (by decide)⟩

/-! ## C8: send_input error contract and touch -/

/-- C8: `send_input` returns `NotFound` exactly when the id is not
registered; it returns `SendError` exactly when the id is registered but
its input queue has been closed; whenever the terminal is present its
`last_activity` is set to now (the `touch` happens before the send, so it
happens even when the send then fails); and `resize` likewise touches the
terminal when it is present. -/
theorem c8_send_input_contract (st : ManagerState) (id : String) (now : Int)
    (cols rows : Nat) :
    ((writeToTerminal st id now).1 = .error (.notFound id) ↔
      alookup id st.sessions = none) ∧
    ((writeToTerminal st id now).1 = .error (.sendError "channel closed") ↔
      ∃ r, alookup id st.sessions = some r ∧ r.queueOpen = false) ∧
    (∀ r, alookup id st.sessions = some r →
      alookup id (writeToTerminal st id now).2.sessions
        = some { r with lastActivity := now }) ∧
    (∀ r p, alookup id st.sessions = some r → alookup id st.ptys = some p →
      alookup id (resizeTerminal st id cols rows now).2.1.sessions
        = some { r with lastActivity := now }) := by
  refine ⟨?_, ?_, ?_, ?_⟩
  · cases hl : alookup id st.sessions with
    | none => simp [writeToTerminal, hl]
    | some r => cases hq : r.queueOpen <;> simp [writeToTerminal, hl, hq]
  · cases hl : alookup id st.sessions with
    | none => simp [writeToTerminal, hl]
    | some r => cases hq : r.queueOpen <;> simp [writeToTerminal, hl, hq]
  · intro r hl
    cases hq : r.queueOpen <;> simp [writeToTerminal, hl, hq, touch]
  · intro r p hl hp
    simp [resizeTerminal, ptyResize, hp, touch, hl]

/-- Witness for C8: a closed-queue terminal yields `SendError` yet is
touched; an absent id yields `NotFound`. -/
theorem c8_send_input_contract_witness :
    (writeToTerminal ⟨[("a", ⟨false, 0, 0, true⟩)], []⟩ "a" 7).1
        = .error (.sendError "channel closed") ∧
    alookup "a" (writeToTerminal ⟨[("a", ⟨false, 0, 0, true⟩)], []⟩ "a" 7).2.sessions
        = some ⟨false, 0, 7, true⟩ ∧
    (writeToTerminal ⟨[], []⟩ "a" 7).1 = .error (.notFound "a") :=
  ⟨(c8_send_input_contract ⟨[("a", ⟨false, 0, 0, true⟩)], []⟩ "a" 7 0 0).2.1.mpr
      ⟨⟨false, 0, 0, true⟩, by decide, rfl⟩,
   (c8_send_input_contract ⟨[("a", ⟨false, 0, 0, true⟩)], []⟩ "a" 7 0 0).2.2.1
      ⟨false, 0, 0, true⟩ (by decide),
   (c8_send_input_contract ⟨[], []⟩ "a" 7 0 0).1.mpr rfl⟩

/-! ## C5: reaper lemmas -/

@[simp] theorem closeTerminal_sessions (st : ManagerState) (id : String) :
    (closeTerminal st id).1.sessions = aerase id st.sessions := rfl

@[simp] theorem closeTerminal_ptys (st : ManagerState) (id : String) :
    (closeTerminal st id).1.ptys = (ptyClose st.ptys id).2.1 := rfl

theorem ptyClose_preserves (pm : PtyMap) (i k : String) (h : i ≠ k) :
    alookup k (ptyClose pm i).2.1 = alookup k pm := by
  cases hl : alookup i pm <;> simp [ptyClose, hl, h]

theorem closeFold_sessions (ids : List String) (st : ManagerState) (ev : List PtyEvent) :
    ((ids.foldl closeFold (st, ev)).1).sessions
      = ids.foldl (fun s i => aerase i s) st.sessions := by
  induction ids generalizing st ev with
  | nil => rfl
  | cons i is ih =>
    simp only [List.foldl_cons]
    exact ih (closeTerminal st i).1 (ev ++ (closeTerminal st i).2)

theorem closeFold_events_shift (ids : List String) (st : ManagerState) (ev : List PtyEvent) :
    (ids.foldl closeFold (st, ev)).2 = ev ++ (ids.foldl closeFold (st, [])).2 := by
  induction ids generalizing st ev with
  | nil => simp
  | cons i is ih =>
    simp only [List.foldl_cons]
    have hc : ∀ e₂ : List PtyEvent,
        closeFold (st, e₂) i = ((closeTerminal st i).1, e₂ ++ (closeTerminal st i).2) :=
      fun _ => rfl
    rw [hc, hc, ih ((closeTerminal st i).1) (ev ++ (closeTerminal st i).2),
      ih ((closeTerminal st i).1) ([] ++ (closeTerminal st i).2)]
    simp [List.append_assoc]

theorem closeFold_kill_wait (ids : List String) (st : ManagerState) (id : String)
    (hmem : id ∈ ids) (hp : alookup id st.ptys ≠ none) :
    PtyEvent.killed id ∈ (ids.foldl closeFold (st, [])).2 ∧
    PtyEvent.waited id ∈ (ids.foldl closeFold (st, [])).2 := by
  induction ids generalizing st with
  | nil => cases hmem
  | cons i is ih =>
    simp only [List.foldl_cons]
    have hc : closeFold (st, []) i = ((closeTerminal st i).1, [] ++ (closeTerminal st i).2) :=
      rfl
    rw [hc, closeFold_events_shift]
    by_cases h : i = id
    · subst h
      obtain ⟨p, hpp⟩ := Option.ne_none_iff_exists.mp hp
      have hev : (closeTerminal st i).2 = [.killed i, .waited i] := by
        simp [closeTerminal, ptyClose, hpp.symm]
      constructor <;> simp [hev]
    · have hmem₂ : id ∈ is := by
        rcases List.mem_cons.mp hmem with h₁ | h₁
        · exact absurd h₁.symm h
        · exact h₁
      have hp₂ : alookup id (closeTerminal st i).1.ptys ≠ none := by
        rw [closeTerminal_ptys, ptyClose_preserves _ _ _ h]
        exact hp
      have hi := ih ((closeTerminal st i).1) hmem₂ hp₂
      constructor <;> simp [List.mem_append, hi.1, hi.2]

theorem mem_reaperSelect (s : List (String × SessionRecord)) (now : Int) (timeout : Nat)
    (id : String) :
    id ∈ reaperSelect s now timeout ↔
      ∃ r, (id, r) ∈ s ∧ r.connected = false ∧ timeout < (now - r.lastActivity).toNat := by
  simp only [reaperSelect, List.mem_map, List.mem_filter]
  constructor
  · rintro ⟨⟨k, r⟩, ⟨hmem, hcond⟩, hfst⟩
    cases hfst
    refine ⟨r, hmem, ?_⟩
    simpa [Bool.and_eq_true, Bool.not_eq_true'] using hcond
  · rintro ⟨r, hmem, hc, ht⟩
    exact ⟨(id, r), ⟨hmem, by simp [hc, ht]⟩, rfl⟩

/-- C5: on a reaper tick, a terminal record is removed exactly when its
connected flag is false and its idle duration (now minus last activity,
clamped at zero) strictly exceeds the idle timeout; a connected record is
left in place unchanged; and every removed terminal whose backend is
registered in the pty manager has its child killed and waited. -/
theorem c5_reaper_selection (st : ManagerState) (now : Int) (timeout : Nat)
    (id : String) (r : SessionRecord)
    (hnd : (st.sessions.map Prod.fst).Nodup)
    (hl : alookup id st.sessions = some r) :
    (r.connected = true → alookup id (reaperTick st now timeout).1.sessions = some r) ∧
    (alookup id (reaperTick st now timeout).1.sessions = none ↔
      (r.connected = false ∧ timeout < (now - r.lastActivity).toNat)) ∧
    (r.connected = false → timeout < (now - r.lastActivity).toNat →
      alookup id st.ptys ≠ none →
      PtyEvent.killed id ∈ (reaperTick st now timeout).2 ∧
      PtyEvent.waited id ∈ (reaperTick st now timeout).2) := by
  have hsel : id ∈ reaperSelect st.sessions now timeout ↔
      (r.connected = false ∧ timeout < (now - r.lastActivity).toNat) := by
    rw [mem_reaperSelect]
    constructor
    · rintro ⟨r₂, hmem, hc, ht⟩
      have h₂ : alookup id st.sessions = some r₂ := alookup_of_mem_nodup _ _ _ hnd hmem
      rw [hl] at h₂
      cases h₂
      exact ⟨hc, ht⟩
    · rintro ⟨hc, ht⟩
      exact ⟨r, mem_of_alookup _ _ _ hl, hc, ht⟩
  have hlook : alookup id (reaperTick st now timeout).1.sessions
      = if id ∈ reaperSelect st.sessions now timeout then none
        else alookup id st.sessions := by
    rw [reaperTick, closeFold_sessions, alookup_foldl_aerase]
  refine ⟨?_, ?_, ?_⟩
  · intro hc
    have hni : id ∉ reaperSelect st.sessions now timeout := by
      intro hmem
      exact absurd (hsel.mp hmem).1 (by simp [hc])
    rw [hlook, if_neg hni, hl]
  · rw [hlook]
    by_cases hmem : id ∈ reaperSelect st.sessions now timeout
    · simp [hmem, hsel.mp hmem]
    · simp only [if_neg hmem, hl]
      constructor
      · intro hfalse
        cases hfalse
      · intro hcond
        exact absurd (hsel.mpr hcond) hmem
  · intro hc ht hp
    exact closeFold_kill_wait _ st id (hsel.mpr ⟨hc, ht⟩) hp

/-- Witness for C5: a disconnected record idle for 10 (timeout 5) is
removed and its pty child killed and waited. -/
theorem c5_reaper_selection_witness :
    alookup "t1"
        (reaperTick ⟨[("t1", ⟨true, 0, 0, false⟩)], [("t1", ⟨80, 24⟩)]⟩ 10 5).1.sessions
      = none ∧
    PtyEvent.killed "t1"
        ∈ (reaperTick ⟨[("t1", ⟨true, 0, 0, false⟩)], [("t1", ⟨80, 24⟩)]⟩ 10 5).2 := by
  have h := c5_reaper_selection ⟨[("t1", ⟨true, 0, 0, false⟩)], [("t1", ⟨80, 24⟩)]⟩ 10 5 "t1"
    ⟨true, 0, 0, false⟩ (by decide) (by decide)
  exact ⟨h.2.1.mpr (by decide), (h.2.2 (by decide) (by decide) (by decide)).1⟩

/-! ## C2: login failure messages -/

/-- C2 counterexample: two failing login requests whose user-visible
messages differ — an empty local username yields
`"Username and password required"` while a wrong password for a valid local
username yields `"Invalid username or password"`, so the response reveals
which check rejected the credentials.  (Instantiated at the Latin-1
restriction of the alphanumeric predicate; the only username evaluated,
`"alice"`, is ASCII, where it coincides with the Rust predicate.) -/
theorem c2_distinct_failure_messages :
    (loginHandler latin1IsAlphanumeric ⟨none, none, .noAuth⟩ ⟨none, none, some "pw"⟩
        .failure (.error "x")).1.success = false ∧
    (loginHandler latin1IsAlphanumeric ⟨none, none, .noAuth⟩ ⟨none, some "alice", some "pw"⟩
        .failure (.error "x")).1.success = false ∧
    (loginHandler latin1IsAlphanumeric ⟨none, none, .noAuth⟩ ⟨none, none, some "pw"⟩
        .failure (.error "x")).1.message
      ≠ (loginHandler latin1IsAlphanumeric ⟨none, none, .noAuth⟩
          ⟨none, some "alice", some "pw"⟩ .failure (.error "x")).1.message := by
  decide

/-- C2 (amended): login failure messages depend on the cause.  On the local
path: empty effective username or password yields
`"Username and password required"`; a username failing the character guard
yields `"Invalid username"`; a platform rejection of well-formed
credentials yields `"Invalid username or password"`.  On the remote path:
no configured auth and an empty form password yields `"Password required"`;
an empty username yields `"Username required"` (and SSH failures propagate
the SSH error text).  So failure responses are not a single fixed message.
The theorem is quantified over the character-class predicate `isAlnum`, so
instantiated at the standard library's `char::is_alphanumeric` it states
what the program does for every username. -/
theorem c2_failure_message_by_cause (isAlnum : Char → Bool) (cfg : AppConfigModel)
    (login : LoginRequestModel) (os : PlatformOutcome) (ssh : Except String String) :
    (isLocalHost (effectiveHost cfg login) = true →
      (effectiveUser cfg login = "" ∨ effectiveLocalPassword cfg login = "") →
      (loginHandler isAlnum cfg login os ssh).1
        = ⟨false, "Username and password required", none⟩) ∧
    (isLocalHost (effectiveHost cfg login) = true →
      effectiveUser cfg login ≠ "" → effectiveLocalPassword cfg login ≠ "" →
      (effectiveUser cfg login).data.all (usernameCharOk isAlnum) = false →
      (loginHandler isAlnum cfg login os ssh).1 = ⟨false, "Invalid username", none⟩) ∧
    (isLocalHost (effectiveHost cfg login) = true →
      effectiveUser cfg login ≠ "" → effectiveLocalPassword cfg login ≠ "" →
      (effectiveUser cfg login).data.all (usernameCharOk isAlnum) = true → os = .failure →
      (loginHandler isAlnum cfg login os ssh).1
        = ⟨false, "Invalid username or password", none⟩) ∧
    (isLocalHost (effectiveHost cfg login) = false → cfg.auth = .noAuth →
      formPasswordOf login = "" →
      (loginHandler isAlnum cfg login os ssh).1 = ⟨false, "Password required", none⟩) ∧
    (isLocalHost (effectiveHost cfg login) = false → formPasswordOf login ≠ "" →
      effectiveUser cfg login = "" →
      (loginHandler isAlnum cfg login os ssh).1 = ⟨false, "Username required", none⟩) := by
  refine ⟨?_, ?_, ?_, ?_, ?_⟩
  · intro hlocal hemp
    rcases hemp with h | h <;> simp [loginHandler, hlocal, h]
  · intro hlocal h₁ h₂ h₃
    simp [loginHandler, hlocal, h₁, h₂, authenticateOs, h₃]
  · intro hlocal h₁ h₂ h₃ hos
    subst hos
    simp [loginHandler, hlocal, h₁, h₂, authenticateOs, h₃]
  · intro hremote hauth hpw
    simp [loginHandler, hremote, hauth, hpw]
  · intro hremote hpw huser
    cases hauth : cfg.auth <;> simp [loginHandler, hremote, hauth, hpw, huser]

/-- Witness for C2 (amended): the empty-credential cause at concrete
inputs. -/
theorem c2_failure_message_by_cause_witness :
    (loginHandler latin1IsAlphanumeric ⟨none, none, .noAuth⟩ ⟨none, none, some "pw"⟩
        .failure (.error "x")).1
      = ⟨false, "Username and password required", none⟩ :=
  (c2_failure_message_by_cause latin1IsAlphanumeric ⟨none, none, .noAuth⟩
    ⟨none, none, some "pw"⟩ .failure (.error "x")).1 (by decide) (Or.inl (by decide))

end WebShell
